import Mathlib

/-!
Verification development for the Dolittle live pet interpretation app.

Shallow embedding of:
 - services/speechService.ts  (speak, cancelSpeech, isSpeaking)
 - services/geminiService.ts  (interpretLiveFrame, interpretPetVideo, handleGeminiError)
 - the live video view component (camera lifecycle, identification confirm,
   the periodic interpretation cycle) as an explicit event-step system.

Machine effects (store writes, speech calls, timer installs) are recorded as
explicit effect lists; asynchronous awaits are split into a start phase
(timer fire, which registers a pending request together with the closure
values the callback captured) and a resume phase (resolution of the pending
request).
-/

namespace Dolittle

set_option maxRecDepth 100000

/-! ## JavaScript string primitives

Structural (kernel-evaluable) implementations over the character list of a
String: substring test (String.prototype.includes), trim, toLowerCase,
substring(0, n) and startsWith. -/

/-- Whitespace predicate of the trim implementation. -/
def isWS (c : Char) : Bool :=
  c = ' ' || c = '\t' || c = '\n' || c = '\r'

/-- JavaScript String.prototype.trim. -/
def strTrim (s : String) : String :=
  ⟨((s.data.dropWhile isWS).reverse.dropWhile isWS).reverse⟩

/-- JavaScript String.prototype.includes. -/
def strContains (s pat : String) : Bool :=
  s.data.tails.any (fun t => pat.data.isPrefixOf t)

/-- JavaScript String.prototype.toLowerCase (ASCII is all we need). -/
def strToLower (s : String) : String :=
  ⟨s.data.map Char.toLower⟩

/-- JavaScript String.prototype.substring(0, n). -/
def strTake (s : String) (n : Nat) : String :=
  ⟨s.data.take n⟩

/-- JavaScript String.prototype.startsWith. -/
def strStartsWith (s pat : String) : Bool :=
  pat.data.isPrefixOf s.data

/-! ## speechService.ts -/

/-- A speech synthesis voice: `lang` and the `default` flag of the
SpeechSynthesisVoice object (field named isDefault in Lean). -/
structure Voice where
  name : String
  lang : String
  isDefault : Bool
deriving DecidableEq

/-- The module-level SpeechSynthesisUtterance: mutable text, lang, rate and
the currently assigned voice (null when never assigned). -/
structure Utterance where
  text : String
  lang : String
  rate : Rat
  voice : Option Voice
deriving DecidableEq

/-- The browser SpeechSynthesis engine: whether it is speaking, and the
voice list reported by getVoices(). -/
structure SynthState where
  speaking : Bool
  voices : List Voice
deriving DecidableEq

/-- Module state of speechService.ts: `synth` and `utterance` are both
initialized when the browser supports speech synthesis, both null otherwise. -/
structure SpeechState where
  synth : Option SynthState
  utterance : Option Utterance
deriving DecidableEq

/-- Observable actions of the speech service: the console warning, a call to
synth.cancel(), and a call to synth.speak(utterance) with the utterance
fields at call time. -/
inductive SpeechAct where
  | warn
  | cancelAct
  | speakAct (text lang : String) (voice : Option Voice)
deriving DecidableEq

/-- Voice lookup of speak (lines 43-52 of speechService.ts): first a voice
with an exact lang match that is flagged default, otherwise the first voice
whose lang starts with the first two characters of the requested lang. -/
def findVoice (voices : List Voice) (lang : String) : Option Voice :=
  match voices.find? (fun v => v.lang == lang && v.isDefault) with
  | some v => some v
  | none => voices.find? (fun v => strStartsWith v.lang (strTake lang 2))

/-- speechService.speak: warn and return when synth or utterance is null;
cancel when currently speaking; set utterance fields; assign a voice only
when the voice list is nonempty and no voice has been assigned yet; then
call synth.speak. -/
def speak (st : SpeechState) (text lang : String) (rate : Rat) :
    SpeechState × List SpeechAct :=
  match st.synth, st.utterance with
  | some sy, some u =>
    let cancelActs : List SpeechAct :=
      if sy.speaking then [SpeechAct.cancelAct] else []
    let sy1 : SynthState := if sy.speaking then { sy with speaking := false } else sy
    let u1 : Utterance := { u with text := text, lang := lang, rate := rate }
    let u2 : Utterance :=
      if sy1.voices.length > 0 && u1.voice.isNone then
        match findVoice sy1.voices lang with
        | some v => { u1 with voice := some v }
        | none => u1
      else u1
    let sy2 : SynthState := { sy1 with speaking := true }
    (⟨some sy2, some u2⟩, cancelActs ++ [SpeechAct.speakAct text lang u2.voice])
  | _, _ => (st, [SpeechAct.warn])

/-- speechService.cancelSpeech: cancel only when synth exists and is speaking. -/
def cancelSpeech (st : SpeechState) : SpeechState × List SpeechAct :=
  match st.synth with
  | some sy =>
    if sy.speaking then
      (⟨some { sy with speaking := false }, st.utterance⟩, [SpeechAct.cancelAct])
    else (st, [])
  | none => (st, [])

/-- speechService.isSpeaking: synth?.speaking || false. -/
def isSpeaking (st : SpeechState) : Bool :=
  match st.synth with
  | some sy => sy.speaking
  | none => false

/-! ## geminiService.ts -/

/-- Outcome of the awaited work inside the try block of a gemini call:
`ok t` is a resolved response whose .text field is `t` (none models a
non-string value), `err m` is a rejection with an Error whose message is
`m` (transport failure, timeout, quota, or file-processing failure),
`errOpaque` is a rejection with a non-Error value. -/
inductive BackendResult where
  | ok (text : Option String)
  | err (message : String)
  | errOpaque
deriving DecidableEq

/-- geminiService.handleGeminiError: maps a caught error (some message for
an Error instance, none for a non-Error value) to the surfaced message. -/
def handleGeminiError (e : Option String) : String :=
  match e with
  | none => "An unknown error occurred while communicating with the Gemini API."
  | some msg =>
    if strContains (strToLower msg) "quota" then
      "API request failed due to quota limits. Please check your Gemini API plan or try again later."
    else if strContains (strToLower msg) "api key not valid" || strContains (strToLower msg) "invalid api key" then
      "Invalid Gemini API Key. Please ensure the API_KEY environment variable is set correctly."
    else if strContains msg "Failed to process" || strContains msg "The AI returned an empty" then
      msg
    else
      "Failed to get response from Gemini: " ++ msg

/-- Message thrown when the GoogleGenAI client was not constructed. -/
def clientNotInitializedMsg : String :=
  "Gemini API client is not initialized. Check API_KEY configuration."

/-- Fallback sentence returned by the live path for empty or non-string text. -/
def liveFallback : String :=
  "The AI didn\x27t provide a specific observation for this moment."

/-- Message thrown by interpretPetVideo for empty or non-string text. -/
def videoEmptyMsg : String :=
  "The AI returned an empty or unexpected response. Please try a different video or prompt."

/-- geminiService.interpretLiveFrame: throws only when the client is not
initialized; an empty or non-string response yields the fallback sentence;
a rejection inside the try is caught and converted to a returned string
"Error from AI: " plus the first 100 characters of the message. -/
def interpretLiveFrame (aiInit : Bool) (resp : BackendResult) :
    Except String String :=
  if !aiInit then Except.error clientNotInitializedMsg
  else
    match resp with
    | BackendResult.ok (some s) =>
      if strTrim s = "" then Except.ok liveFallback else Except.ok s
    | BackendResult.ok none => Except.ok liveFallback
    | BackendResult.err m => Except.ok ("Error from AI: " ++ strTake m 100)
    | BackendResult.errOpaque => Except.ok ("Error from AI: " ++ "Communication issue")

/-- geminiService.interpretPetVideo: throws when the client is not
initialized; an empty or non-string response is a thrown error (routed
through handleGeminiError, which preserves this particular message); any
rejection inside the try is rethrown through handleGeminiError. -/
def interpretPetVideo (aiInit : Bool) (resp : BackendResult) :
    Except String String :=
  if !aiInit then Except.error clientNotInitializedMsg
  else
    match resp with
    | BackendResult.ok (some s) =>
      if strTrim s = "" then Except.error (handleGeminiError (some videoEmptyMsg))
      else Except.ok s
    | BackendResult.ok none => Except.error (handleGeminiError (some videoEmptyMsg))
    | BackendResult.err m => Except.error (handleGeminiError (some m))
    | BackendResult.errOpaque => Except.error (handleGeminiError none)

/-! ## The live video view component

The component is embedded as an explicit state plus event-step functions.
React closure capture is modelled faithfully: the interval callback created
by startLiveInterpretation sees the state values of the render that created
it (a `Captured` record stored with the timer), while refs and functional
state updaters see current values. The useEffect of lines 189-203 reruns
after every handler that changes one of its dependencies; it is applied as
`reconcileCycleEffect` after each such handler. -/

/-- The identifiedPetInfo record returned by identifyPetFromFrame; all three
fields are optional in the component state type. -/
structure PetInfo where
  animalType : Option String
  breed : Option String
  description : Option String
deriving DecidableEq

/-- An interpretation log entry as passed to addInterpretationToPet (id and
timestamp are added by the store). -/
structure InterpEntry where
  text : String
  context : String
deriving DecidableEq

/-- Externally observable effects of the component: store create (addPet),
store append (addInterpretationToPet), speech calls, stream track release,
and timer management. -/
inductive Effect where
  | storeCreate (name : String) (animalType breed : Option String)
  | storeAppend (petId : String) (entry : InterpEntry)
  | speakCall (text : String)
  | cancelSpeechCall
  | stopTracks
  | clearTimer
  | setTimer
deriving DecidableEq

/-- The state values captured by the startLiveInterpretation useCallback
closure (its dependency list: isCameraOn, currentManagingPetId,
identifiedPetInfo, isMuted). -/
structure Captured where
  isCameraOn : Bool
  currentManagingPetId : Option String
  identifiedPetInfo : Option PetInfo
  isMuted : Bool
deriving DecidableEq

/-- The React state of the component. `stream` is whether the stream state
is non-null; `srcObject` is whether videoRef.current.srcObject is set. -/
structure ViewState where
  stream : Bool
  srcObject : Bool
  isCameraOn : Bool
  currentLiveInterpretation : String
  interpretationLog : List String
  isLoading : Bool
  error : Option String
  identifiedPetInfo : Option PetInfo
  petName : String
  currentManagingPetId : Option String
  isMuted : Bool
deriving DecidableEq

/-- Session state: the view state, the installed interval (with its
captured closure values) and the list of in-flight interpretLiveFrame
calls, each with the closure values its continuation will use. -/
structure SessionState where
  view : ViewState
  timer : Option Captured
  pending : List Captured
deriving DecidableEq

/-- Closure snapshot of the current render. -/
def captureOf (v : ViewState) : Captured :=
  ⟨v.isCameraOn, v.currentManagingPetId, v.identifiedPetInfo, v.isMuted⟩

/-- The cycle period constant LIVE_INTERPRETATION_INTERVAL (ms). -/
def LIVE_INTERPRETATION_INTERVAL : Nat := 5000

/-- Prompt used by a tick when a pet is already bound. -/
def PET_IDENTIFICATION_PROMPT : String :=
  "Describe what this pet is doing or feeling right now. This is a live view. Be concise and friendly."

/-- Prompt used by a tick during the provisional identification flow. -/
def NEW_PET_PROMPT_LIVE : String :=
  "I\x27m observing this pet live. What might it be doing or feeling right now? Give a short, friendly observation."

/-- Prompt selection inside the tick (line 167): depends on the captured
currentManagingPetId. -/
def tickPrompt (c : Captured) : String :=
  if c.currentManagingPetId.isSome then PET_IDENTIFICATION_PROMPT else NEW_PET_PROMPT_LIVE

/-- captureFrameAsBase64: returns a frame only when the isCameraOn value
seen by the closure is true; `cam` bundles the video, canvas and 2d-context
availability and the encoded frame content. -/
def captureFrame (isCameraOn : Bool) (cam : Option String) : Option String :=
  if isCameraOn then cam else none

/-- startLiveInterpretation (lines 150-186): clear any installed interval;
return without installing when the closure sees neither a bound pet nor a
pending identification; otherwise install the interval whose callback
closes over `c`. -/
def startLiveInterpretation (c : Captured) (s : SessionState) :
    SessionState × List Effect :=
  let cleared : SessionState × List Effect :=
    match s.timer with
    | some _ => ({ s with timer := none }, [Effect.clearTimer])
    | none => (s, [])
  if c.currentManagingPetId.isNone && c.identifiedPetInfo.isNone then cleared
  else ({ cleared.1 with timer := some c }, cleared.2 ++ [Effect.setTimer])

/-- The useEffect of lines 189-203: when the camera is on and a pet is
bound or an identification is pending, (re)start the cycle with the current
render closure; otherwise clear the interval. -/
def reconcileCycleEffect (s : SessionState) : SessionState × List Effect :=
  if s.view.isCameraOn && (s.view.currentManagingPetId.isSome || s.view.identifiedPetInfo.isSome) then
    startLiveInterpretation (captureOf s.view) s
  else
    match s.timer with
    | some _ => ({ s with timer := none }, [Effect.clearTimer])
    | none => (s, [])

/-- stopCamera (lines 66-78): stop all stream tracks, clear stream state
and camera flag, clear the interval, cancel speech. The pet info and the
in-flight requests are untouched. -/
def stopCamera (s : SessionState) : SessionState × List Effect :=
  let trackEffs : List Effect := if s.view.stream then [Effect.stopTracks] else []
  let v : ViewState := { s.view with stream := false, isCameraOn := false }
  let cleared : SessionState × List Effect :=
    match s.timer with
    | some _ => (⟨v, none, s.pending⟩, [Effect.clearTimer])
    | none => (⟨v, s.timer, s.pending⟩, [])
  (cleared.1, trackEffs ++ cleared.2 ++ [Effect.cancelSpeechCall])

/-- stopCamera followed by the rerender useEffect. -/
def stopCameraStep (s : SessionState) : SessionState × List Effect :=
  let r := stopCamera s
  let r2 := reconcileCycleEffect r.1
  (r2.1, r.2 ++ r2.2)

/-- startCamera success path (lines 39-60): clear error, text and log,
acquire the stream, set srcObject and the camera flag; when a pet is
already selected, call startLiveInterpretation with the closure of the
render that created it (which still sees isCameraOn = false). -/
def startCameraOk (s : SessionState) : SessionState × List Effect :=
  let c0 : Captured := captureOf s.view
  let v : ViewState :=
    { s.view with error := none, currentLiveInterpretation := "",
                  interpretationLog := [], stream := true, srcObject := true,
                  isCameraOn := true }
  let s1 : SessionState := { s with view := v }
  if c0.currentManagingPetId.isNone then (s1, [])
  else startLiveInterpretation c0 s1

/-- startCamera success followed by the rerender useEffect. -/
def startCameraStep (s : SessionState) : SessionState × List Effect :=
  let r := startCameraOk s
  let r2 := reconcileCycleEffect r.1
  (r2.1, r.2 ++ r2.2)

/-- selectExistingPet (lines 206-216): bind the pet, clear the
identification flow, the log and the text; when the camera is on, call
startLiveInterpretation with the previous render closure. -/
def selectExistingPet (s : SessionState) (petId : String) :
    SessionState × List Effect :=
  let c0 : Captured := captureOf s.view
  let v : ViewState :=
    { s.view with currentManagingPetId := some petId, identifiedPetInfo := none,
                  petName := "", error := none, interpretationLog := [],
                  currentLiveInterpretation := "" }
  let s1 : SessionState := { s with view := v }
  let r : SessionState × List Effect :=
    if s.view.isCameraOn then startLiveInterpretation c0 s1 else (s1, [])
  let r2 := reconcileCycleEffect r.1
  (r2.1, r.2 ++ r2.2)

/-- JavaScript truthy-or on an optional string field (x || d): undefined
and the empty string fall through to the alternative. -/
def jsOr (o : Option String) (d : String) : String :=
  match o with
  | some s => if s = "" then d else s
  | none => d

/-- The identification observation text of lines 141: a template literal
over animalType (|| fallback), breed (conditional parenthesis) and
description (undefined renders as "undefined"). -/
def identificationSummary (info : PetInfo) : String :=
  "Identified as " ++ jsOr info.animalType "Unknown type" ++
  (match info.breed with
   | some b => if b = "" then "" else " (" ++ b ++ ")"
   | none => "") ++
  ". Description: " ++ info.description.getD "undefined"

/-- Validation message of handleSaveIdentifiedPet. -/
def nameRequiredMsg : String := "Please provide a name for your pet."

/-- handleSaveIdentifiedPet (lines 128-148): reject when no identification
is pending or the trimmed name is empty; otherwise create the pet with the
trimmed name, append one Identification observation for the new id, bind
the new pet, clear the identification form and start the cycle (the inline
call still sees the previous render closure; the rerender useEffect then
reinstalls the interval with the new closure). `newId` is the id the store
assigns to the created pet. -/
def handleSaveIdentifiedPet (s : SessionState) (newId : String) :
    SessionState × List Effect :=
  match s.view.identifiedPetInfo with
  | none => ({ s with view := { s.view with error := some nameRequiredMsg } }, [])
  | some info =>
    if strTrim s.view.petName = "" then
      ({ s with view := { s.view with error := some nameRequiredMsg } }, [])
    else
      let c0 : Captured := captureOf s.view
      let createEff : Effect :=
        Effect.storeCreate (strTrim s.view.petName) info.animalType info.breed
      let appendEff : Effect :=
        Effect.storeAppend newId ⟨identificationSummary info, "Identification"⟩
      let v : ViewState :=
        { s.view with error := none, currentManagingPetId := some newId,
                      identifiedPetInfo := none, petName := "" }
      let r := startLiveInterpretation c0 { s with view := v }
      let r2 := reconcileCycleEffect r.1
      (r2.1, [createEff, appendEff] ++ r.2 ++ r2.2)

/-- Mute toggle (line 271): flips isMuted; the flipped flag is a dependency
of the startLiveInterpretation useCallback, so the rerender useEffect runs. -/
def toggleMute (s : SessionState) : SessionState × List Effect :=
  reconcileCycleEffect { s with view := { s.view with isMuted := !s.view.isMuted } }

/-- One firing of the installed interval (lines 158-185 up to the await):
with no interval nothing fires; a closure that sees the camera off, or a
missing srcObject, clears the interval; a failed frame capture skips the
tick; otherwise isLoading is set and the interpretLiveFrame call goes in
flight with the closure values. No in-flight check occurs. -/
def timerFire (s : SessionState) (cam : Option String) :
    SessionState × List Effect :=
  match s.timer with
  | none => (s, [])
  | some c =>
    if !c.isCameraOn || !s.view.srcObject then
      ({ s with timer := none }, [Effect.clearTimer])
    else
      match captureFrame c.isCameraOn cam with
      | none => (s, [])
      | some _ =>
        ({ s with view := { s.view with isLoading := true },
                  pending := s.pending ++ [c] }, [])

/-- The bounded log push of line 170: the new entry in front of the first
99 previous entries, so the log never exceeds 100 entries and the log is
newest-first. -/
def pushLog (t : String) (log : List String) : List String :=
  t :: log.take 99

/-- Resolution of the i-th in-flight interpretLiveFrame call (lines 168-183
after the await): on a resolved text, set the text, push it onto the log
keeping the first 100 entries, append to the captured pet when one is
bound, and speak unless the captured mute flag is set; on a rejection, set
the text and the error field only. isLoading is cleared in both branches. -/
def resolveTick (s : SessionState) (i : Nat) (aiInit : Bool)
    (resp : BackendResult) : SessionState × List Effect :=
  match s.pending[i]? with
  | none => (s, [])
  | some c =>
    let s0 : SessionState := { s with pending := s.pending.eraseIdx i }
    match interpretLiveFrame aiInit resp with
    | Except.ok text =>
      let v : ViewState :=
        { s0.view with currentLiveInterpretation := text,
                       interpretationLog := pushLog text s0.view.interpretationLog,
                       isLoading := false }
      let appendEffs : List Effect :=
        match c.currentManagingPetId with
        | some pid => [Effect.storeAppend pid ⟨text, "Live Interpretation"⟩]
        | none => []
      let speakEffs : List Effect :=
        if c.isMuted then [] else [Effect.speakCall text]
      ({ s0 with view := v }, appendEffs ++ speakEffs)
    | Except.error msg =>
      let v : ViewState :=
        { s0.view with currentLiveInterpretation := msg, error := some msg,
                       isLoading := false }
      ({ s0 with view := v }, [])

/-- Session events. -/
inductive Event where
  | startCameraOkEvt
  | stopCameraEvt
  | timerFireEvt (cam : Option String)
  | resolveEvt (i : Nat) (aiInit : Bool) (resp : BackendResult)
  | selectPetEvt (petId : String)
  | savePetEvt (newId : String)
  | toggleMuteEvt
deriving DecidableEq

/-- Event dispatcher. -/
def step (s : SessionState) : Event → SessionState × List Effect
  | Event.startCameraOkEvt => startCameraStep s
  | Event.stopCameraEvt => stopCameraStep s
  | Event.timerFireEvt cam => timerFire s cam
  | Event.resolveEvt i aiInit resp => resolveTick s i aiInit resp
  | Event.selectPetEvt petId => selectExistingPet s petId
  | Event.savePetEvt newId => handleSaveIdentifiedPet s newId
  | Event.toggleMuteEvt => toggleMute s

/-- Run a sequence of events, concatenating the effect traces. -/
def run (s : SessionState) : List Event → SessionState × List Effect
  | [] => (s, [])
  | e :: es =>
    let r := step s e
    let r2 := run r.1 es
    (r2.1, r.2 ++ r2.2)

/-- The component mount state (all useState initial values); activePetId is
the prop-selected pet. -/
def initialView (activePetId : Option String) : ViewState :=
  { stream := false, srcObject := false, isCameraOn := false,
    currentLiveInterpretation := "", interpretationLog := [], isLoading := false,
    error := none, identifiedPetInfo := none, petName := "",
    currentManagingPetId := activePetId, isMuted := false }

/-- The initial session: no timer, nothing in flight. -/
def initialSession (activePetId : Option String) : SessionState :=
  ⟨initialView activePetId, none, []⟩

/-- Store effects of a trace (addPet and addInterpretationToPet calls). -/
def storeEffects : List Effect → List Effect :=
  List.filter (fun e =>
    match e with
    | Effect.storeCreate _ _ _ => true
    | Effect.storeAppend _ _ => true
    | _ => false)

/-! ## Concrete fixture states for counterexamples and witnesses -/

/-- Closure of a Tracking render: camera on, pet p1 bound, unmuted. -/
def cTrack : Captured := ⟨true, some "p1", none, false⟩

/-- View state of a Tracking session on pet p1, unmuted. -/
def vTrack : ViewState :=
  { stream := true, srcObject := true, isCameraOn := true,
    currentLiveInterpretation := "", interpretationLog := [], isLoading := true,
    error := none, identifiedPetInfo := none, petName := "",
    currentManagingPetId := some "p1", isMuted := false }

/-- Tracking session with one interpretation request in flight. -/
def sTrack : SessionState := ⟨vTrack, some cTrack, [cTrack]⟩

/-- Tracking session with nothing in flight (isLoading rendered false). -/
def sTrackIdle : SessionState := ⟨{ vTrack with isLoading := false }, some cTrack, []⟩

/-- An identification result for the confirm flow fixtures. -/
def infoDog : PetInfo := ⟨some "Dog", some "Unknown", some "A dog."⟩

/-- View state awaiting confirmation with the proposed name " Rex ". -/
def vConfirm : ViewState :=
  { vTrack with currentManagingPetId := none, identifiedPetInfo := some infoDog,
                petName := " Rex " }

/-- Session awaiting confirmation of infoDog. -/
def sConfirm : SessionState := ⟨vConfirm, none, []⟩

/-- Session awaiting confirmation with a whitespace-only name. -/
def sConfirmEmpty : SessionState := ⟨{ vConfirm with petName := "   " }, none, []⟩

/-- A French system-default voice. -/
def vFr : Voice := ⟨"f", "fr-FR", true⟩

/-- An English (en-US) system-default voice. -/
def vEn : Voice := ⟨"e", "en-US", true⟩

/-- Speech state whose shared utterance already carries the French voice
from an earlier call. -/
def stC9 : SpeechState := ⟨some ⟨false, [vEn, vFr]⟩, some ⟨"", "fr-FR", 1, some vFr⟩⟩

/-! ## Helper lemmas -/

/-- startLiveInterpretation leaves the view unchanged. -/
theorem startLive_view (c : Captured) (s : SessionState) :
    (startLiveInterpretation c s).1.view = s.view := by
  unfold startLiveInterpretation
  cases s.timer <;>
    by_cases h : c.currentManagingPetId.isNone && c.identifiedPetInfo.isNone <;>
    simp [h]

/-- startLiveInterpretation leaves the in-flight list unchanged. -/
theorem startLive_pending (c : Captured) (s : SessionState) :
    (startLiveInterpretation c s).1.pending = s.pending := by
  unfold startLiveInterpretation
  cases s.timer <;>
    by_cases h : c.currentManagingPetId.isNone && c.identifiedPetInfo.isNone <;>
    simp [h]

/-- reconcileCycleEffect leaves the view unchanged. -/
theorem reconcile_view (s : SessionState) :
    (reconcileCycleEffect s).1.view = s.view := by
  unfold reconcileCycleEffect
  by_cases h : s.view.isCameraOn &&
      (s.view.currentManagingPetId.isSome || s.view.identifiedPetInfo.isSome)
  · simpa [h] using startLive_view (captureOf s.view) s
  · cases ht : s.timer <;> simp [h, ht]

/-- reconcileCycleEffect leaves the in-flight list unchanged. -/
theorem reconcile_pending (s : SessionState) :
    (reconcileCycleEffect s).1.pending = s.pending := by
  unfold reconcileCycleEffect
  by_cases h : s.view.isCameraOn &&
      (s.view.currentManagingPetId.isSome || s.view.identifiedPetInfo.isSome)
  · simpa [h] using startLive_pending (captureOf s.view) s
  · cases ht : s.timer <;> simp [h, ht]

/-- startLiveInterpretation emits no store effects. -/
theorem startLive_no_store (c : Captured) (s : SessionState) :
    storeEffects (startLiveInterpretation c s).2 = [] := by
  unfold startLiveInterpretation
  cases s.timer <;>
    by_cases h : c.currentManagingPetId.isNone && c.identifiedPetInfo.isNone <;>
    simp [h, storeEffects]

/-- reconcileCycleEffect emits no store effects. -/
theorem reconcile_no_store (s : SessionState) :
    storeEffects (reconcileCycleEffect s).2 = [] := by
  unfold reconcileCycleEffect
  by_cases h : s.view.isCameraOn &&
      (s.view.currentManagingPetId.isSome || s.view.identifiedPetInfo.isSome)
  · simpa [h] using startLive_no_store (captureOf s.view) s
  · cases ht : s.timer <;> simp [h, ht, storeEffects]

/-- storeEffects distributes over trace concatenation. -/
theorem storeEffects_append (l1 l2 : List Effect) :
    storeEffects (l1 ++ l2) = storeEffects l1 ++ storeEffects l2 := by
  unfold storeEffects
  simp [List.filter_append]

/-- With the camera on and a pet bound, the rerender useEffect installs the
interval with the current render closure. -/
theorem reconcile_timer_on (s : SessionState)
    (hcam : s.view.isCameraOn = true)
    (hpid : s.view.currentManagingPetId.isSome = true) :
    (reconcileCycleEffect s).1.timer = some (captureOf s.view) := by
  obtain ⟨pid, hp⟩ := Option.isSome_iff_exists.mp hpid
  unfold reconcileCycleEffect startLiveInterpretation
  cases ht : s.timer <;> simp [hcam, hp, captureOf]

/-- With no installed interval, a timer firing is a strict no-op. -/
theorem timerFire_none (s : SessionState) (cam : Option String)
    (h : s.timer = none) : timerFire s cam = (s, []) := by
  unfold timerFire
  rw [h]

/-- With no installed interval, any sequence of timer firings is a no-op. -/
theorem run_fires_none (s : SessionState) (cams : List (Option String))
    (h : s.timer = none) : run s (cams.map Event.timerFireEvt) = (s, []) := by
  induction cams with
  | nil => rfl
  | cons cam cams ih =>
    simp [List.map_cons, run, step, timerFire_none s cam h, ih]

/-! ## Claim C1 -/

/-- C1 counterexample: in Tracking with mute off, a backend timeout of the
interpret call does not reach the failure branch of the cycle — the live
service resolves with the truncated error marker and the controller
performs a store append AND a speak call with that marker, contradicting
the claim that no append and no announce happen on such a tick. -/
theorem C1_counterexample :
    Effect.storeAppend "p1" ⟨"Error from AI: Request timed out", "Live Interpretation"⟩ ∈
      (resolveTick sTrack 0 true (BackendResult.err "Request timed out")).2 ∧
    Effect.speakCall "Error from AI: Request timed out" ∈
      (resolveTick sTrack 0 true (BackendResult.err "Request timed out")).2 ∧
    (resolveTick sTrack 0 true
        (BackendResult.err "Request timed out")).1.view.currentLiveInterpretation =
      "Error from AI: Request timed out" := by
  decide

/-- C1 amended: a backend failure of a tick resolves (it does not reject):
the most-recent observation text becomes the truncated marker
"Error from AI: " plus the first 100 characters of the message, the state
stays Tracking (camera flag and bound pet unchanged), and with a bound pet
and mute off the tick DOES append the marker to the store and speak it.
Only a rejected interpret call (inference client uninitialized, the only
rejection the live path can produce) sets the text without any store
append or announce. -/
theorem C1_error_tick (s : SessionState) (i : Nat) (c : Captured)
    (pid m : String) (hc : s.pending[i]? = some c)
    (hpid : c.currentManagingPetId = some pid) (hmute : c.isMuted = false) :
    ((resolveTick s i true (BackendResult.err m)).1.view.currentLiveInterpretation =
        "Error from AI: " ++ strTake m 100 ∧
      (resolveTick s i true (BackendResult.err m)).1.view.isCameraOn = s.view.isCameraOn ∧
      (resolveTick s i true (BackendResult.err m)).1.view.currentManagingPetId =
        s.view.currentManagingPetId ∧
      (resolveTick s i true (BackendResult.err m)).2 =
        [Effect.storeAppend pid
           ⟨"Error from AI: " ++ strTake m 100, "Live Interpretation"⟩,
         Effect.speakCall ("Error from AI: " ++ strTake m 100)]) ∧
    (∀ resp : BackendResult,
      (resolveTick s i false resp).2 = [] ∧
      (resolveTick s i false resp).1.view.currentLiveInterpretation =
        clientNotInitializedMsg ∧
      (resolveTick s i false resp).1.view.isCameraOn = s.view.isCameraOn ∧
      (resolveTick s i false resp).1.view.currentManagingPetId =
        s.view.currentManagingPetId) := by
  constructor
  · unfold resolveTick
    rw [hc]
    simp [interpretLiveFrame, hpid, hmute]
  · intro resp
    unfold resolveTick
    rw [hc]
    simp [interpretLiveFrame]

/-- C1 witness: the amended theorem applied to the concrete Tracking
fixture and a concrete timeout message. -/
theorem C1_witness :
    (resolveTick sTrack 0 true
        (BackendResult.err "Request timed out")).1.view.currentLiveInterpretation =
      "Error from AI: " ++ strTake "Request timed out" 100 ∧
    (resolveTick sTrack 0 false (BackendResult.err "Request timed out")).2 = [] := by
  obtain ⟨h1, h2⟩ :=
    C1_error_tick sTrack 0 cTrack "p1" "Request timed out" rfl rfl rfl
  exact ⟨h1.1, (h2 (BackendResult.err "Request timed out")).1⟩

/-! ## Claim C2 -/

/-- C2 counterexample: with one interpretation request already in flight
(after a first timer firing), a second timer firing starts a second request
instead of skipping the tick: the in-flight count goes from 1 to 2. -/
theorem C2_counterexample :
    (step sTrackIdle (Event.timerFireEvt (some "frame"))).1.pending.length = 1 ∧
    (step (step sTrackIdle (Event.timerFireEvt (some "frame"))).1
        (Event.timerFireEvt (some "frame"))).1.pending.length = 2 := by
  decide

/-- C2 amended: the cycle tick is not gated on the previous tick: whenever
the interval fires with a closure that sees the camera on, a live
srcObject and a captured frame, a new interpretLiveFrame request is
appended to the in-flight list regardless of how many requests are already
outstanding (the isLoading flag is set but never consulted), so concurrent
requests can pile up. -/
theorem C2_tick_not_gated (s : SessionState) (c : Captured) (f : String)
    (ht : s.timer = some c) (hcam : c.isCameraOn = true)
    (hsrc : s.view.srcObject = true) :
    (timerFire s (some f)).1.pending = s.pending ++ [c] ∧
    (timerFire s (some f)).1.view.isLoading = true := by
  unfold timerFire
  rw [ht]
  simp [hcam, hsrc, captureFrame]

/-- C2 witness: the amended theorem at the concrete Tracking fixture that
already has one request in flight. -/
theorem C2_witness :
    (timerFire sTrack (some "frame")).1.pending = sTrack.pending ++ [cTrack] ∧
    (timerFire sTrack (some "frame")).1.view.isLoading = true :=
  C2_tick_not_gated sTrack cTrack "frame" rfl rfl rfl

/-! ## Claim C3 -/

/-- C3 counterexample: a tick in flight for pet p1 resolves after the user
switches to pet p2; the result is not discarded — it is written as the
most-recent observation text, appended to the store (under p1) and spoken.
There is no generation counter anywhere in the component. -/
theorem C3_counterexample :
    ((selectExistingPet sTrack "p2").1.view.currentManagingPetId = some "p2") ∧
    (resolveTick (selectExistingPet sTrack "p2").1 0 true
        (BackendResult.ok (some "Happy dog"))).2 =
      [Effect.storeAppend "p1" ⟨"Happy dog", "Live Interpretation"⟩,
       Effect.speakCall "Happy dog"] ∧
    (resolveTick (selectExistingPet sTrack "p2").1 0 true
        (BackendResult.ok (some "Happy dog"))).1.view.currentLiveInterpretation =
      "Happy dog" := by
  decide

/-- C3 amended: a stale in-flight result is NOT discarded: on resolution it
is written to the observation text and log, persisted and spoken according
to the closure values captured when the tick started. The only part of the
claim the code meets is attribution: every store append emitted by a
resolution targets the pet the tick closure captured, so a stale result is
never attributed to a newly bound subject. -/
theorem C3_stale_result (s : SessionState) (i : Nat) (c : Captured)
    (hc : s.pending[i]? = some c) :
    (∀ (aiInit : Bool) (resp : BackendResult) (pid : String) (entry : InterpEntry),
      Effect.storeAppend pid entry ∈ (resolveTick s i aiInit resp).2 →
        c.currentManagingPetId = some pid) ∧
    (∀ t : String, strTrim t ≠ "" → c.isMuted = false →
      Effect.speakCall t ∈ (resolveTick s i true (BackendResult.ok (some t))).2 ∧
      (resolveTick s i true
          (BackendResult.ok (some t))).1.view.currentLiveInterpretation = t ∧
      (resolveTick s i true (BackendResult.ok (some t))).1.view.interpretationLog =
        pushLog t s.view.interpretationLog) := by
  constructor
  · intro aiInit resp pid entry hmem
    unfold resolveTick at hmem
    rw [hc] at hmem
    cases hr : interpretLiveFrame aiInit resp with
    | ok text =>
      rw [hr] at hmem
      simp only [List.mem_append] at hmem
      rcases hmem with hmem | hmem
      · cases hp : c.currentManagingPetId with
        | none => rw [hp] at hmem; simp at hmem
        | some q =>
          rw [hp] at hmem
          simp at hmem
          simp [hp, hmem.1]
      · by_cases hm : c.isMuted <;> simp [hm] at hmem
    | error msg =>
      rw [hr] at hmem
      simp at hmem
  · intro t htrim hmute
    unfold resolveTick
    rw [hc]
    simp [interpretLiveFrame, htrim, hmute]

/-- C3 witness: the amended theorem at the subject-switch fixture: the
stale resolution after switching from p1 to p2 only ever appends to p1,
and the successful text is spoken and written. -/
theorem C3_witness :
    (∀ (aiInit : Bool) (resp : BackendResult) (pid : String) (entry : InterpEntry),
      Effect.storeAppend pid entry ∈
          (resolveTick (selectExistingPet sTrack "p2").1 0 aiInit resp).2 →
        cTrack.currentManagingPetId = some pid) ∧
    Effect.speakCall "Happy dog" ∈
      (resolveTick (selectExistingPet sTrack "p2").1 0 true
        (BackendResult.ok (some "Happy dog"))).2 := by
  have h := C3_stale_result (selectExistingPet sTrack "p2").1 0 cTrack (by decide)
  exact ⟨h.1, (h.2 "Happy dog" (by decide) rfl).1⟩

/-! ## Claim C4 -/

/-- C4: stopCamera clears the interval in every state, so no timer firing
can occur afterwards (any sequence of subsequent firings is a strict
no-op), the camera flag drops, cancelSpeech is called, the stream tracks
are stopped whenever a stream was held, and cancelSpeech always leaves the
engine not speaking. stopCamera is total: it succeeds from any state. -/
theorem C4_stop_camera (s : SessionState) (cams : List (Option String)) :
    (stopCameraStep s).1.timer = none ∧
    (stopCameraStep s).1.view.isCameraOn = false ∧
    run (stopCameraStep s).1 (cams.map Event.timerFireEvt) = ((stopCameraStep s).1, []) ∧
    Effect.cancelSpeechCall ∈ (stopCameraStep s).2 ∧
    (s.view.stream = true → Effect.stopTracks ∈ (stopCameraStep s).2) ∧
    (∀ sp : SpeechState, isSpeaking (cancelSpeech sp).1 = false) := by
  have htimer : (stopCameraStep s).1.timer = none ∧
      (stopCameraStep s).1.view.isCameraOn = false := by
    unfold stopCameraStep stopCamera reconcileCycleEffect
    cases ht : s.timer <;> simp
  refine ⟨htimer.1, htimer.2, run_fires_none _ cams htimer.1, ?_, ?_, ?_⟩
  · unfold stopCameraStep stopCamera reconcileCycleEffect
    cases ht : s.timer <;> by_cases hs : s.view.stream <;> simp [hs]
  · intro hstream
    unfold stopCameraStep stopCamera reconcileCycleEffect
    cases ht : s.timer <;> simp [hstream]
  · intro sp
    unfold cancelSpeech isSpeaking
    cases hsy : sp.synth with
    | none => simp [hsy]
    | some sy => by_cases hsp : sy.speaking <;> simp [hsy, hsp]

/-- C4 witness: the theorem at the concrete Tracking fixture with two
subsequent firing attempts, with the held-stream hypothesis discharged. -/
theorem C4_witness :
    (stopCameraStep sTrack).1.timer = none ∧
    run (stopCameraStep sTrack).1
        ([some "frame", none].map Event.timerFireEvt) =
      ((stopCameraStep sTrack).1, []) ∧
    Effect.stopTracks ∈ (stopCameraStep sTrack).2 := by
  have h := C4_stop_camera sTrack [some "frame", none]
  exact ⟨h.1, h.2.2.1, h.2.2.2.2.1 rfl⟩

/-! ## Claim C5 -/

/-- C5: the bounded observation log holds at most 100 entries across every
event of the session, and pushing onto a log at capacity keeps exactly the
first 99 previous entries: since the log is newest-first, the evicted
entry is precisely the oldest (the last), and the new length is again 100. -/
theorem C5_log_capacity :
    (∀ (s : SessionState) (e : Event),
      s.view.interpretationLog.length ≤ 100 →
      (step s e).1.view.interpretationLog.length ≤ 100) ∧
    (∀ (log : List String) (t : String), log.length = 100 →
      pushLog t log = t :: log.dropLast ∧ (pushLog t log).length = 100) := by
  constructor
  · intro s e h
    cases e with
    | startCameraOkEvt =>
      have : (startCameraStep s).1.view.interpretationLog = [] := by
        unfold startCameraStep startCameraOk
        by_cases hc : (captureOf s.view).currentManagingPetId.isNone <;>
          simp [hc, reconcile_view, startLive_view]
      simpa [step] using le_of_eq_of_le (congrArg List.length this) (by simp)
    | stopCameraEvt =>
      have : (stopCameraStep s).1.view.interpretationLog =
          s.view.interpretationLog := by
        unfold stopCameraStep stopCamera
        cases ht : s.timer <;> simp [reconcile_view]
      simpa [step, this] using h
    | timerFireEvt cam =>
      have : (timerFire s cam).1.view.interpretationLog =
          s.view.interpretationLog := by
        unfold timerFire
        cases ht : s.timer with
        | none => rfl
        | some c =>
          by_cases hg : !c.isCameraOn || !s.view.srcObject
          · simp [hg]
          · cases hf : captureFrame c.isCameraOn cam <;> simp [hg, hf]
      simpa [step, this] using h
    | resolveEvt i aiInit resp =>
      unfold step resolveTick
      cases hp : s.pending[i]? with
      | none => simpa [hp] using h
      | some c =>
        cases hr : interpretLiveFrame aiInit resp with
        | ok text => simp [hp, hr, pushLog]
        | error msg => simpa [hp, hr] using h
    | selectPetEvt petId =>
      have : (selectExistingPet s petId).1.view.interpretationLog = [] := by
        unfold selectExistingPet
        by_cases hc : s.view.isCameraOn <;>
          simp [hc, reconcile_view, startLive_view]
      simpa [step] using le_of_eq_of_le (congrArg List.length this) (by simp)
    | savePetEvt newId =>
      have : (handleSaveIdentifiedPet s newId).1.view.interpretationLog =
          s.view.interpretationLog := by
        unfold handleSaveIdentifiedPet
        cases hi : s.view.identifiedPetInfo with
        | none => simp
        | some info =>
          by_cases hn : strTrim s.view.petName = "" <;>
            simp [hn, reconcile_view, startLive_view]
      simpa [step, this] using h
    | toggleMuteEvt =>
      have : (toggleMute s).1.view.interpretationLog =
          s.view.interpretationLog := by
        unfold toggleMute
        simp [reconcile_view]
      simpa [step, this] using h
  · intro log t hlen
    constructor
    · unfold pushLog
      rw [List.dropLast_eq_take, hlen]
    · simp [pushLog, hlen]

/-- C5 witness: the preservation part at a concrete state and event, and
the eviction part at a concrete log of exactly 100 entries. -/
theorem C5_witness :
    (step sTrack (Event.resolveEvt 0 true (BackendResult.ok (some "ok")))).1.view.interpretationLog.length ≤ 100 ∧
    pushLog "new" (List.replicate 100 "old") =
      "new" :: (List.replicate 100 "old").dropLast := by
  refine ⟨C5_log_capacity.1 sTrack _ (by decide), ?_⟩
  exact (C5_log_capacity.2 (List.replicate 100 "old") "new" (by simp)).1

/-! ## Claim C6 -/

/-- C6: confirming a pending identification with a non-empty trimmed name
performs exactly one store create carrying the trimmed name, exactly one
store append tagged Identification whose text summarizes the identified
type, breed and description, binds the new pet as the tracked subject,
clears the pending identification, and leaves the cycle interval installed
with the new closure (camera on, new pet bound). -/
theorem C6_confirm_creates_pet (s : SessionState) (info : PetInfo)
    (newId : String) (hinfo : s.view.identifiedPetInfo = some info)
    (hname : ¬ strTrim s.view.petName = "")
    (hcam : s.view.isCameraOn = true) :
    storeEffects (handleSaveIdentifiedPet s newId).2 =
      [Effect.storeCreate (strTrim s.view.petName) info.animalType info.breed,
       Effect.storeAppend newId ⟨identificationSummary info, "Identification"⟩] ∧
    (handleSaveIdentifiedPet s newId).1.view.currentManagingPetId = some newId ∧
    (handleSaveIdentifiedPet s newId).1.view.identifiedPetInfo = none ∧
    (handleSaveIdentifiedPet s newId).1.timer =
      some ⟨true, some newId, none, s.view.isMuted⟩ := by
  unfold handleSaveIdentifiedPet
  rw [hinfo]
  simp only [hname, if_false]
  refine ⟨?_, ?_, ?_, ?_⟩
  · rw [storeEffects_append, storeEffects_append, startLive_no_store,
        reconcile_no_store]
    simp [storeEffects]
  · simp [reconcile_view, startLive_view]
  · simp [reconcile_view, startLive_view]
  · rw [reconcile_timer_on]
    · rw [startLive_view]
      simp [captureOf, hcam]
    · rw [startLive_view]
      exact hcam
    · rw [startLive_view]
      rfl

/-- C6 witness: the theorem at the concrete confirm fixture (identified
Dog, proposed name " Rex ", camera on): one create with "Rex", one
Identification append, pet bound, form cleared, interval installed. -/
theorem C6_witness :
    storeEffects (handleSaveIdentifiedPet sConfirm "id9").2 =
      [Effect.storeCreate "Rex" (some "Dog") (some "Unknown"),
       Effect.storeAppend "id9"
         ⟨"Identified as Dog (Unknown). Description: A dog.", "Identification"⟩] ∧
    (handleSaveIdentifiedPet sConfirm "id9").1.view.currentManagingPetId = some "id9" ∧
    (handleSaveIdentifiedPet sConfirm "id9").1.timer =
      some ⟨true, some "id9", none, false⟩ := by
  have h := C6_confirm_creates_pet sConfirm infoDog "id9" rfl (by decide) rfl
  exact ⟨h.1, h.2.1, h.2.2.2⟩

/-! ## Claim C7 -/

/-- C7: confirming with an empty or whitespace-only name performs zero
store calls (the effect trace is empty), keeps the pending identification
and the whole rest of the state intact, and surfaces the validation
message; in particular the session stays in AwaitingConfirmation. -/
theorem C7_confirm_empty_name (s : SessionState) (info : PetInfo)
    (newId : String) (hinfo : s.view.identifiedPetInfo = some info)
    (hname : strTrim s.view.petName = "") :
    handleSaveIdentifiedPet s newId =
      ({ s with view := { s.view with error := some nameRequiredMsg } }, []) ∧
    (handleSaveIdentifiedPet s newId).2 = [] ∧
    (handleSaveIdentifiedPet s newId).1.view.identifiedPetInfo = some info ∧
    (handleSaveIdentifiedPet s newId).1.view.error = some nameRequiredMsg ∧
    (handleSaveIdentifiedPet s newId).1.timer = s.timer := by
  have heq : handleSaveIdentifiedPet s newId =
      ({ s with view := { s.view with error := some nameRequiredMsg } }, []) := by
    unfold handleSaveIdentifiedPet
    rw [hinfo]
    simp [hname]
  exact ⟨heq, by rw [heq], by rw [heq]; exact hinfo, by rw [heq], by rw [heq]⟩

/-- C7 witness: the theorem at the concrete fixture with the
whitespace-only name. -/
theorem C7_witness :
    (handleSaveIdentifiedPet sConfirmEmpty "id9").2 = [] ∧
    (handleSaveIdentifiedPet sConfirmEmpty "id9").1.view.identifiedPetInfo =
      some infoDog ∧
    (handleSaveIdentifiedPet sConfirmEmpty "id9").1.view.error =
      some nameRequiredMsg := by
  have h := C7_confirm_empty_name sConfirmEmpty infoDog "id9" rfl (by decide)
  exact ⟨h.2.1, h.2.2.1, h.2.2.2.1⟩

/-! ## Claim C8 -/

/-- C8: with an initialized client the live interpret path never throws at
all — every backend outcome resolves to some text — and empty or
non-string text resolves to the fixed fallback sentence; the one-shot
video path instead throws on empty or non-string text. -/
theorem C8_live_fallback_video_throws :
    (∀ resp : BackendResult, ∃ t, interpretLiveFrame true resp = Except.ok t) ∧
    interpretLiveFrame true (BackendResult.ok none) = Except.ok liveFallback ∧
    (∀ s : String, strTrim s = "" →
      interpretLiveFrame true (BackendResult.ok (some s)) = Except.ok liveFallback) ∧
    interpretPetVideo true (BackendResult.ok none) = Except.error videoEmptyMsg ∧
    (∀ s : String, strTrim s = "" →
      interpretPetVideo true (BackendResult.ok (some s)) =
        Except.error videoEmptyMsg) := by
  have hmsg : handleGeminiError (some videoEmptyMsg) = videoEmptyMsg := by decide
  refine ⟨?_, rfl, ?_, ?_, ?_⟩
  · intro resp
    cases resp with
    | ok t =>
      cases t with
      | none => exact ⟨liveFallback, rfl⟩
      | some s =>
        by_cases hs : strTrim s = ""
        · exact ⟨liveFallback, by simp [interpretLiveFrame, hs]⟩
        · exact ⟨s, by simp [interpretLiveFrame, hs]⟩
    | err m => exact ⟨_, rfl⟩
    | errOpaque => exact ⟨_, rfl⟩
  · intro s hs
    simp [interpretLiveFrame, hs]
  · simp [interpretPetVideo, hmsg]
  · intro s hs
    simp [interpretPetVideo, hs, hmsg]

/-- C8 witness: the live path resolves with the fallback for a
whitespace-only response while the video path throws for the same
response. -/
theorem C8_witness :
    interpretLiveFrame true (BackendResult.ok (some "  ")) = Except.ok liveFallback ∧
    interpretPetVideo true (BackendResult.ok (some "  ")) =
      Except.error videoEmptyMsg := by
  exact ⟨C8_live_fallback_video_throws.2.2.1 "  " (by decide),
         C8_live_fallback_video_throws.2.2.2.2 "  " (by decide)⟩

/-! ## Claim C9 -/

/-- C9 counterexample: the voice-selection block only runs when the shared
utterance has no voice assigned yet. In a state where an earlier call left
the French voice on the utterance, a speak call requesting en-US keeps the
French voice even though an exact en-US system-default voice exists, so
voice selection does NOT prefer the exact locale match on every call. -/
theorem C9_counterexample :
    vEn ∈ [vEn, vFr] ∧ vEn.lang = "en-US" ∧ vEn.isDefault = true ∧
    stC9.synth = some ⟨false, [vEn, vFr]⟩ ∧
    ((speak stC9 "hello" "en-US" 1).1.utterance.map Utterance.voice) =
      some (some vFr) ∧
    vFr.lang ≠ "en-US" := by
  decide

/-- C9 amended: on a speak call where no voice has been assigned to the
shared utterance yet and the engine reports a nonempty voice list, the
selection prefers an exact locale match flagged as a system default; with
no such voice it falls back to the first voice whose locale starts with the
first two characters of the requested locale; with no match at all the
utterance keeps no explicit voice, so the engine uses its implicit default,
and no error is raised. Once a voice has been assigned, later calls reuse
it regardless of the requested locale. -/
theorem C9_voice_selection (sy : SynthState) (u : Utterance)
    (text lang : String) (rate : Rat) (hv : u.voice = none)
    (hne : sy.voices ≠ []) :
    ∃ u2, (speak ⟨some sy, some u⟩ text lang rate).1.utterance = some u2 ∧
      ((∃ v ∈ sy.voices, v.lang = lang ∧ v.isDefault = true) →
        ∃ v, u2.voice = some v ∧ v.lang = lang ∧ v.isDefault = true) ∧
      ((∀ v ∈ sy.voices, ¬(v.lang = lang ∧ v.isDefault = true)) →
        ((∃ v ∈ sy.voices, strStartsWith v.lang (strTake lang 2) = true) →
          ∃ v, u2.voice = some v ∧ strStartsWith v.lang (strTake lang 2) = true) ∧
        ((∀ v ∈ sy.voices, strStartsWith v.lang (strTake lang 2) = false) →
          u2.voice = none)) := by
  have hlen : sy.voices.length > 0 := List.length_pos.mpr hne
  have hu2 : (speak ⟨some sy, some u⟩ text lang rate).1.utterance =
      some { text := text, lang := lang, rate := rate,
             voice := findVoice sy.voices lang } := by
    unfold speak
    cases hsp : sy.speaking <;>
      cases hfv : findVoice sy.voices lang <;>
        simp [hsp, hlen, hv, hfv]
  refine ⟨_, hu2, ?_, ?_⟩
  · rintro ⟨v, hvmem, hvl, hvd⟩
    cases hfind : sy.voices.find? (fun x => x.lang == lang && x.isDefault) with
    | some w =>
      have hpw := List.find?_some hfind
      simp only [Bool.and_eq_true, beq_iff_eq] at hpw
      exact ⟨w, by simp [findVoice, hfind], hpw.1, hpw.2⟩
    | none =>
      have hcon := List.find?_eq_none.mp hfind v hvmem
      simp [hvl, hvd] at hcon
  · intro hnoexact
    have hfind : sy.voices.find? (fun x => x.lang == lang && x.isDefault) = none := by
      apply List.find?_eq_none.mpr
      intro x hx
      simp only [Bool.and_eq_true, beq_iff_eq, not_and]
      intro hxl hxd
      exact hnoexact x hx ⟨hxl, hxd⟩
    constructor
    · rintro ⟨v, hvmem, hvs⟩
      cases hfind2 : sy.voices.find?
          (fun x => strStartsWith x.lang (strTake lang 2)) with
      | some w =>
        refine ⟨w, by simp [findVoice, hfind, hfind2], ?_⟩
        have hpw := List.find?_some hfind2
        simpa using hpw
      | none =>
        have hcon := List.find?_eq_none.mp hfind2 v hvmem
        simp [hvs] at hcon
    · intro hall
      have hfind2 : sy.voices.find?
          (fun x => strStartsWith x.lang (strTake lang 2)) = none := by
        apply List.find?_eq_none.mpr
        intro x hx
        simp [hall x hx]
      simp [findVoice, hfind, hfind2]

/-- C9 witness: the amended theorem at a fresh utterance with the en-US
default voice available: the exact match is chosen. -/
theorem C9_witness :
    ∃ u2, (speak ⟨some ⟨false, [vEn, vFr]⟩, some ⟨"", "en-US", 1, none⟩⟩
        "hi" "en-US" 1).1.utterance = some u2 ∧
      ∃ v, u2.voice = some v ∧ v.lang = "en-US" ∧ v.isDefault = true := by
  obtain ⟨u2, h1, h2, _⟩ :=
    C9_voice_selection ⟨false, [vEn, vFr]⟩ ⟨"", "en-US", 1, none⟩ "hi" "en-US" 1
      rfl (by decide)
  exact ⟨u2, h1, h2 ⟨vEn, by decide, rfl, rfl⟩⟩

/-! ## Claim C10 -/

/-- C10: when the speech engine was never initialized (synth and utterance
both null), speak is a pure no-op apart from the console warning, cancelSpeech
is a strict no-op, and isSpeaking reports false; none of the three can fail. -/
theorem C10_speech_unavailable (text lang : String) (rate : Rat) :
    speak ⟨none, none⟩ text lang rate = (⟨none, none⟩, [SpeechAct.warn]) ∧
    cancelSpeech ⟨none, none⟩ = (⟨none, none⟩, []) ∧
    isSpeaking ⟨none, none⟩ = false :=
  ⟨rfl, rfl, rfl⟩

/-- C10 witness: the theorem at concrete arguments. -/
theorem C10_witness :
    speak ⟨none, none⟩ "hello" "en-US" 1 = (⟨none, none⟩, [SpeechAct.warn]) :=
  (C10_speech_unavailable "hello" "en-US" 1).1

end Dolittle
